import Mathlib

/-!
Verification development for the text2ppt repository.

A shallow embedding of the generation pipeline: the outline fallback of
`llm_client.py` (`LLMClient._create_default_structure`), the two-tier image
transport and base64 persistence of `image_generator.py`
(`ImageGenerator.generate_image`, `_generate_image_raw_api`,
`_save_base64_image`), the deck assembly and per-slide layout decision of
`ppt_generator.py` (`PPTGenerator.create_ppt_from_images`,
`_add_content_text`), and the asynchronous task loop and HTTP endpoints of
`web_server.py` (`generate_ppt_task`, `generate`, `get_status`, `download`).

External capabilities (the OpenAI-style client, `requests`, `base64.b64decode`,
the filesystem, `python-pptx`) are modelled as explicit function parameters or
`Except`/`Option`-valued inputs; Python exceptions become `Except.error` or
`Option.none`, Python string truthiness becomes an emptiness test, and Python
dictionaries with optional keys become structures with `Option` fields read
through `Option.getD` exactly where the source calls `dict.get`.
-/

namespace Text2PPT

/-- One slide record as produced by the LLM stage: a Python dict whose keys
`slide_number`, `title`, `content`, `image_prompt` may each be absent.
Readers use `dict.get(key, default)`, modelled by `Option.getD`. -/
structure Slide where
  slide_number : Option Nat
  title : Option String
  content : Option String
  image_prompt : Option String
  deriving DecidableEq

/-- Layout role of an assembled slide: which text-overlay helper
`create_ppt_from_images` calls (`_add_cover_text`, `_add_content_text`,
`_add_ending_text`). -/
inductive Role where
  | cover
  | content
  | closing
  deriving DecidableEq

/-- One slide of the assembled deck: its background image path, the layout
role chosen by `create_ppt_from_images`, and the title and content strings
handed to the chosen overlay helper. -/
structure RenderedSlide where
  image : String
  role : Role
  title : String
  content : String
  deriving DecidableEq

/-- Embedding of `LLMClient._create_default_structure` (llm_client.py,
lines 127-146): the deterministic placeholder structure fabricated when the
LLM response fails to parse as JSON. The f-strings are expanded with
`toString` on the 1-based slide number; `\x27` is the ASCII apostrophe that
the source writes around the embedded title. -/
def createDefaultStructure (topic : String) (numSlides : Nat) : List Slide :=
  (List.range numSlides).map (fun i =>
    Slide.mk (some (i + 1))
      (some ("Slide " ++ toString (i + 1)))
      (some (if i = 0 then topic else "Content for slide " ++ toString (i + 1)))
      (some ("Professional PPT slide with title \x27Slide " ++ toString (i + 1) ++
        "\x27 in large white font centered, modern blue gradient background, clean corporate design, business presentation style, high quality, 4K")))

/-- Boolean test that `sub` is an initial segment of the second list. -/
def hasPrefixList : List Char → List Char → Bool
  | [], _ => true
  | _ :: _, [] => false
  | a :: as, b :: bs => a == b && hasPrefixList as bs

/-- Boolean test that `sub` occurs contiguously inside the second list; used
to state that an image prompt contains a rendered-text directive. -/
def hasSubstr (sub : List Char) : List Char → Bool
  | [] => hasPrefixList sub []
  | c :: rest => hasPrefixList sub (c :: rest) || hasSubstr sub rest

/-- Python string truthiness for an optional string: `None` and the empty
string are falsy, every other string is truthy. -/
def truthyStr (o : Option String) : Bool :=
  match o with
  | some s => !s.isEmpty
  | none => false

/-- Python `a or b` on two optional strings: yields `a` when `a` is truthy,
otherwise `b` (as in `data["data"][0].get("b64_json") or
data["data"][0].get("image")`). -/
def pyOrStr (a b : Option String) : Option String :=
  if truthyStr a then a else b

/-- One element of the primary (OpenAI-client) image response `data` array:
the attributes `b64_json` and `url` read by `generate_image`. -/
structure PrimImageData where
  b64_json : Option String
  url : Option String
  deriving DecidableEq

/-- Parsed primary image response: its `data` array. -/
structure PrimResponse where
  data : List PrimImageData
  deriving DecidableEq

/-- One element of the raw-HTTP fallback response `data` array: the keys
`b64_json`, `image`, and `url` read by `_generate_image_raw_api`. -/
structure RawImageData where
  b64_json : Option String
  image : Option String
  url : Option String
  deriving DecidableEq

/-- Raw-HTTP fallback response: HTTP status code and the `data` array of the
decoded JSON body (an absent `data` key is the empty list). -/
structure RawResponse where
  status_code : Nat
  data : List RawImageData
  deriving DecidableEq

/-- Embedding of `ImageGenerator._generate_image_raw_api` (image_generator.py,
lines 76-116). `resp` is the outcome of `requests.post`: `Except.error` when
the call (or JSON decoding) raises, otherwise the status code and data array.
`save` and `dl` model `_save_base64_image` and `_download_and_save_image`
applied to the payload and the output filename; both return `none` on their
own internally-caught failures. Every failure path returns `none`: the
enclosing `try/except` never lets an exception escape. -/
def generateImageRawApi (save dl : String → String → Option String)
    (resp : Except String RawResponse) (outputFilename : String) : Option String :=
  match resp with
  | .error _ => none
  | .ok r =>
    if r.status_code = 200 then
      match r.data with
      | [] => none
      | d :: _ =>
        let b64 := pyOrStr d.b64_json d.image
        if truthyStr b64 then save (b64.getD "") outputFilename
        else if truthyStr d.url then dl (d.url.getD "") outputFilename
        else none
    else none

/-- Embedding of `ImageGenerator.generate_image` (image_generator.py, lines
38-74), instrumented with a counter of raw-API fallback invocations.
`primaryCall` models the structured client call applied to the prompt
(`Except.error` when any exception is raised there, including response
parsing); on such an exception the `except` clause invokes
`_generate_image_raw_api` exactly once, which is the only place the counter
is incremented. The result type `Option String × Nat` is total: the function
returns no-path rather than raising on every failure path. -/
def generateImageWithCount (save dl : String → String → Option String)
    (primaryCall : String → Except String PrimResponse)
    (rawCall : String → Except String RawResponse)
    (prompt outputFilename : String) : Option String × Nat :=
  match primaryCall prompt with
  | .ok resp =>
    match resp.data with
    | [] => (none, 0)
    | d :: _ =>
      if truthyStr d.b64_json then (save (d.b64_json.getD "") outputFilename, 0)
      else if truthyStr d.url then (dl (d.url.getD "") outputFilename, 0)
      else (none, 0)
  | .error _ => (generateImageRawApi save dl (rawCall prompt) outputFilename, 1)

/-- Failure of the raw-HTTP fallback as enumerated by the claim: the call
itself raises, the status code is non-success, or the first data element
carries neither a truthy base64 field nor a truthy URL field (an empty data
array having no element at all). -/
def rawFallbackFails (resp : Except String RawResponse) : Prop :=
  match resp with
  | .error _ => True
  | .ok r =>
      r.status_code ≠ 200 ∨ r.data = [] ∨
        (∃ d rest, r.data = d :: rest ∧
          truthyStr (pyOrStr d.b64_json d.image) = false ∧ truthyStr d.url = false)

/-- Embedding of the data-URL stripping step of `_save_base64_image`
(image_generator.py): `if ',' in b64_data: b64_data = b64_data.split(',')[1]`. -/
def stripDataUrl (b64 : String) : String :=
  if b64.contains ',' then (b64.splitOn ",").getD 1 "" else b64

/-- The JPEG magic bytes the source compares against: `b'\xff\xd8\xff'`. -/
def jpegSignature : List Nat := [0xff, 0xd8, 0xff]

/-- Embedding of the extension detection of `_save_base64_image`
(image_generator.py, lines 141-166): `ext = 'png'; if image_bytes[:3] ==
b'\xff\xd8\xff': ext = 'jpg'`. Python slicing `bytes[:3]` is `List.take 3`,
so payloads shorter than three bytes compare unequal and default to png. -/
def detectExt (imageBytes : List Nat) : String :=
  if imageBytes.take 3 = jpegSignature then "jpg" else "png"

/-- Embedding of `ImageGenerator._save_base64_image` (image_generator.py,
lines 141-166). `decode` models the external `base64.b64decode` capability:
`none` when decoding raises (the surrounding `except` then returns no path).
The file write is modelled as succeeding; the returned path is
`os.path.join(IMAGES_DIR, f"{output_filename}.{ext}")`. -/
def saveBase64Image (decode : String → Option (List Nat))
    (imagesDir b64Data outputFilename : String) : Option String :=
  match decode (stripDataUrl b64Data) with
  | none => none
  | some imageBytes =>
      some (imagesDir ++ "/" ++ outputFilename ++ "." ++ detectExt imageBytes)

/-- Python truthiness of the `slides_data` argument of
`create_ppt_from_images`: `None` and the empty list are falsy. -/
def dataTruthy (sd : Option (List Slide)) : Bool :=
  match sd with
  | none => false
  | some l => !l.isEmpty

/-- The `slide_info` dict of `create_ppt_from_images` (ppt_generator.py):
`slides_data[i] if slides_data and i < len(slides_data) else {}`; the empty
dict is `none`. -/
def slideInfo (sd : Option (List Slide)) (i : Nat) : Option Slide :=
  if dataTruthy sd = true ∧ i < (sd.getD []).length then (sd.getD [])[i]? else none

/-- Reading `slide_info.get('slide_number', i + 1)`. -/
def infoNumber (info : Option Slide) (i : Nat) : Nat :=
  (info.bind (fun s => s.slide_number)).getD (i + 1)

/-- Reading `slide_info.get('title', '')`. -/
def infoTitle (info : Option Slide) : String :=
  (info.bind (fun s => s.title)).getD ""

/-- Reading `slide_info.get('content', '')`. -/
def infoContent (info : Option Slide) : String :=
  (info.bind (fun s => s.content)).getD ""

/-- The layout decision of `create_ppt_from_images` (ppt_generator.py, lines
74-83) for the slide at position `i` of the image-path list: `if slide_num ==
1` cover, `elif slides_data and slide_num == len(slides_data)` closing, else
content. -/
def slideRole (sd : Option (List Slide)) (i : Nat) : Role :=
  let num := infoNumber (slideInfo sd i) i
  if num = 1 then Role.cover
  else if dataTruthy sd = true ∧ num = (sd.getD []).length then Role.closing
  else Role.content

/-- The slide-building loop of `create_ppt_from_images` (ppt_generator.py,
lines 51-83): `for i, image_path in enumerate(image_paths)`, skipping (with
the enumeration index still advancing) any path for which `os.path.exists`
is false, and otherwise emitting one slide whose overlay text comes from
`slides_data[i]` and whose overlay helper is chosen by `slideRole`. -/
def createPptAux (fileOnDisk : String → Bool) (sd : Option (List Slide)) :
    Nat → List String → List RenderedSlide
  | _, [] => []
  | i, path :: rest =>
    if fileOnDisk path then
      RenderedSlide.mk path (slideRole sd i)
        (infoTitle (slideInfo sd i)) (infoContent (slideInfo sd i)) ::
        createPptAux fileOnDisk sd (i + 1) rest
    else createPptAux fileOnDisk sd (i + 1) rest

/-- Embedding of `PPTGenerator.create_ppt_from_images` (ppt_generator.py,
lines 28-90), returning the sequence of assembled slides. The presentation
serialization (`prs.save`) is an external capability and is not modelled. -/
def createPptFromImages (fileOnDisk : String → Bool) (imagePaths : List String)
    (sd : Option (List Slide)) : List RenderedSlide :=
  createPptAux fileOnDisk sd 0 imagePaths

/-- Embedding of Python `str.replace(a, b)` for single characters, as in
`content.replace('；', ';')` of `_add_content_text`; strings are modelled as
character lists for the splitting algebra. -/
def pyReplace (a b : Char) : List Char → List Char
  | [] => []
  | c :: cs => (if c = a then b else c) :: pyReplace a b cs

/-- Embedding of Python `str.split(sep)` for a one-character separator:
splits at every occurrence and keeps empty fields, with `''.split(sep) ==
['']`. -/
def pySplit (sep : Char) : List Char → List (List Char)
  | [] => [[]]
  | c :: cs =>
    if c = sep then [] :: pySplit sep cs
    else
      match pySplit sep cs with
      | [] => [[c]]
      | r :: rs => (c :: r) :: rs

/-- Embedding of Python `str.strip()`: drop whitespace from both ends. -/
def pyStrip (l : List Char) : List Char :=
  ((l.dropWhile Char.isWhitespace).reverse.dropWhile Char.isWhitespace).reverse

/-- Embedding of the content-splitting line of `PPTGenerator._add_content_text`
(ppt_generator.py, line 192): `points = [p.strip() for p in
content.replace('；', ';').split(';') if p.strip()]`. -/
def parsePoints (content : List Char) : List (List Char) :=
  ((pySplit ';' (pyReplace '；' ';' content)).map pyStrip).filter
    (fun p => !p.isEmpty)

/-- Joining content points with a single delimiter character, the
construction named by the round-trip property (Python `sep.join(points)`). -/
def joinPoints (sep : Char) : List (List Char) → List Char
  | [] => []
  | [p] => p
  | p :: q :: rest => p ++ sep :: joinPoints sep (q :: rest)

/-- Embedding of the style application of `generate_ppt_task`
(web_server.py, lines 60-62): `if style: prompt = f"{prompt}, {style} design
style"`. -/
def applyStyle (style p : String) : String :=
  if !style.isEmpty then p ++ ", " ++ style ++ " design style" else p

/-- Python `f"{n:02d}"` for a natural number. -/
def pad2 (n : Nat) : String :=
  if n < 10 then "0" ++ toString n else toString n

/-- The image-generation loop of `generate_ppt_task` (web_server.py, lines
50-66): iterate slides with their enumeration index, skip slides whose
`image_prompt` is falsy, apply the style modifier, render with the filename
`f"{task_id}_slide_{slide_num:02d}"`, and collect only the successful paths
in order. `render` models `ImageGenerator.generate_image` (prompt, filename
→ optional path; it never raises). -/
def taskImagePathsAux (render : String → String → Option String)
    (style taskId : String) : Nat → List Slide → List String
  | _, [] => []
  | i, s :: rest =>
    let num := (s.slide_number).getD (i + 1)
    let p := (s.image_prompt).getD ""
    let tailPaths := taskImagePathsAux render style taskId (i + 1) rest
    if !p.isEmpty then
      match render (applyStyle style p) (taskId ++ "_slide_" ++ pad2 num) with
      | some path => path :: tailPaths
      | none => tailPaths
    else tailPaths

/-- Embedding of `generate_ppt_task` (web_server.py, lines 25-99): on an LLM
exception the task ends `failed`; otherwise the image loop runs, the deck is
assembled from the collected paths with the full slide list as
`slides_data`, and the task ends `completed`. Returns the final task status
together with the assembled deck. -/
def generatePptTask (llmResult : Except String (List Slide))
    (render : String → String → Option String) (style taskId : String)
    (fileOnDisk : String → Bool) : String × List RenderedSlide :=
  match llmResult with
  | .error _ => ("failed", [])
  | .ok slides =>
    let paths := taskImagePathsAux render style taskId 0 slides
    ("completed", createPptFromImages fileOnDisk paths (some slides))

/-- The prompt actually passed to `generate_image` for each rendered slide of
the `generate_ppt_task` loop, in order (slides with a falsy `image_prompt`
are skipped and render nothing). -/
def renderedPrompts (slides : List Slide) (style : String) : List String :=
  slides.filterMap (fun s =>
    let p := (s.image_prompt).getD ""
    if !p.isEmpty then some (applyStyle style p) else none)

/-- The original (unstyled) prompts of the slides that reach rendering. -/
def slidePromptList (slides : List Slide) : List String :=
  slides.filterMap (fun s =>
    let p := (s.image_prompt).getD ""
    if !p.isEmpty then some p else none)

/-- An HTTP endpoint outcome: a success payload, or an error with its HTTP
status code and message string. -/
inductive ApiResp where
  | success : String → ApiResp
  | failure : Nat → String → ApiResp
  deriving DecidableEq

/-- The slice of a task record read by the endpoints: its status string and,
for completed tasks, the artifact path and download filename from
`task['result']`. -/
structure TaskEntry where
  status : String
  pptPath : String
  pptFilename : String
  deriving DecidableEq

/-- Embedding of the `generate` endpoint (web_server.py, lines 101-135):
`text = data.get('text', '')`; a blank text (`not text.strip()`) is rejected
with 400 `Text content is required`, otherwise a task is created and its
identifier returned. `pyStrip` on the character list models `str.strip()`. -/
def generateEndpoint (text : Option String) (taskId : String) : ApiResp :=
  if (pyStrip (text.getD "").toList).isEmpty then
    ApiResp.failure 400 "Text content is required"
  else ApiResp.success taskId

/-- Embedding of the `get_status` endpoint (web_server.py, lines 138-143):
unknown identifiers get 404 `Task not found`, otherwise the task record is
returned (modelled by its status string). -/
def statusEndpoint (tasks : String → Option TaskEntry) (taskId : String) : ApiResp :=
  match tasks taskId with
  | none => ApiResp.failure 404 "Task not found"
  | some t => ApiResp.success t.status

/-- Embedding of the `download` endpoint (web_server.py, lines 146-164):
unknown identifier → 404 `Task not found`; task not completed → 400 `PPT not
ready yet`; artifact file absent on disk → 404 `File not found`; otherwise
the file is sent (modelled by its download filename). -/
def downloadEndpoint (tasks : String → Option TaskEntry)
    (fileOnDisk : String → Bool) (taskId : String) : ApiResp :=
  match tasks taskId with
  | none => ApiResp.failure 404 "Task not found"
  | some t =>
    if t.status ≠ "completed" then ApiResp.failure 400 "PPT not ready yet"
    else if fileOnDisk t.pptPath = false then ApiResp.failure 404 "File not found"
    else ApiResp.success t.pptFilename

theorem not_isEmpty_of_ne_nil {α : Type} (l : List α) (h : l ≠ []) :
    (!l.isEmpty) = true := by
  cases l with
  | nil => exact absurd rfl h
  | cons a as => rfl

theorem isEmpty_false_of_ne (s : String) (h : s ≠ "") : s.isEmpty = false := by
  cases hi : s.isEmpty
  · rfl
  · exact absurd ((String.isEmpty_iff s).mp hi) h

/-- C1: when the language-model response fails to parse as JSON,
`generate_ppt_structure` falls back to `_create_default_structure`, which
returns exactly `n` slide records with `slide_number` 1..n in order, titles
`Slide i`, content equal to the topic for slide 1 and a generic placeholder
for the rest — but whose image prompt embeds the numbered slide title as
rendered white text (a blue-gradient corporate description that is not free
of text). -/
theorem C1_default_structure (topic : String) (n : Nat) :
    (createDefaultStructure topic n).length = n ∧
    ∀ i, i < n →
      (createDefaultStructure topic n)[i]? =
        some (Slide.mk (some (i + 1)) (some ("Slide " ++ toString (i + 1)))
          (some (if i = 0 then topic else "Content for slide " ++ toString (i + 1)))
          (some ("Professional PPT slide with title \x27Slide " ++ toString (i + 1) ++
            "\x27 in large white font centered, modern blue gradient background, clean corporate design, business presentation style, high quality, 4K"))) := by
  constructor
  · simp [createDefaultStructure]
  · intro i hi
    simp [createDefaultStructure, List.getElem?_map, List.getElem?_range, hi]

/-- C1 witness: the default structure for topic `ai` with three slides, read
at slide index 1. -/
theorem C1_default_structure_witness :
    (createDefaultStructure "ai" 3)[1]? =
      some (Slide.mk (some 2) (some ("Slide " ++ toString 2))
        (some ("Content for slide " ++ toString 2))
        (some ("Professional PPT slide with title \x27Slide " ++ toString 2 ++
          "\x27 in large white font centered, modern blue gradient background, clean corporate design, business presentation style, high quality, 4K"))) := by
  have h := (C1_default_structure "ai" 3).2 1 (by decide)
  simpa using h

/-- C1 counterexample: the placeholder image prompt is not free of text — it
explicitly asks for the title `Slide 1` rendered in large white font, and it
contains the rendered-text directive `in large white font` as a substring. -/
theorem C1_counterexample :
    ((createDefaultStructure "topic" 1).map (fun s => (s.image_prompt).getD "")) =
      ["Professional PPT slide with title \x27Slide 1\x27 in large white font centered, modern blue gradient background, clean corporate design, business presentation style, high quality, 4K"] ∧
    hasSubstr ("in large white font".toList)
      ("Professional PPT slide with title \x27Slide 1\x27 in large white font centered, modern blue gradient background, clean corporate design, business presentation style, high quality, 4K".toList) = true := by
  constructor
  · rfl
  · decide

/-- C5: for every base64 payload whose decoding succeeds, the saved image
path carries extension `.jpg` exactly when the decoded bytes begin with the
JPEG signature bytes `ff d8 ff` (the three-byte slice equals the signature),
and `.png` in every other case. -/
theorem C5_extension (decode : String → Option (List Nat)) (imagesDir b64Data outputFilename : String)
    (imageBytes : List Nat) (h : decode (stripDataUrl b64Data) = some imageBytes) :
    saveBase64Image decode imagesDir b64Data outputFilename =
      some (imagesDir ++ "/" ++ outputFilename ++ "." ++ detectExt imageBytes) ∧
    (detectExt imageBytes = "jpg" ↔ imageBytes.take 3 = jpegSignature) ∧
    (imageBytes.take 3 ≠ jpegSignature → detectExt imageBytes = "png") := by
  refine ⟨by simp [saveBase64Image, h], ?_, ?_⟩
  · by_cases hs : imageBytes.take 3 = jpegSignature
    · simp [detectExt, hs]
    · simp only [detectExt, if_neg hs]
      constructor
      · intro hpj
        exact absurd hpj (by decide)
      · intro ht
        exact absurd ht hs
  · intro hs
    simp [detectExt, hs]

/-- C5 witness: a payload starting with the JPEG signature is saved as
`.jpg`, evaluated concretely. -/
theorem C5_extension_witness :
    saveBase64Image (fun _ => some [0xff, 0xd8, 0xff, 0x00]) "images" "abc" "ppt_slide_01" =
      some ("images" ++ "/" ++ "ppt_slide_01" ++ "." ++ detectExt [0xff, 0xd8, 0xff, 0x00]) ∧
    detectExt [0xff, 0xd8, 0xff, 0x00] = "jpg" :=
  ⟨(C5_extension (fun _ => some [0xff, 0xd8, 0xff, 0x00]) "images" "abc" "ppt_slide_01"
      [0xff, 0xd8, 0xff, 0x00] rfl).1,
   ((C5_extension (fun _ => some [0xff, 0xd8, 0xff, 0x00]) "images" "abc" "ppt_slide_01"
      [0xff, 0xd8, 0xff, 0x00] rfl).2.1).mpr (by decide)⟩

/-- C4: for every prompt and filename stem, if the primary structured call
raises any exception then the raw-HTTP fallback is attempted exactly once
(the fallback counter of the instrumented embedding is 1), and whenever the
fallback also fails — its own exception, a non-success status code, or a
response whose first data element has neither a truthy base64 field nor a
truthy URL field — `generate_image` returns no path. The embedding is a
total `Option`-valued function, so no failure path raises to the caller. -/
theorem C4_fallback_once (save dl : String → String → Option String)
    (primaryCall : String → Except String PrimResponse)
    (rawCall : String → Except String RawResponse)
    (prompt outputFilename e : String)
    (hprim : primaryCall prompt = Except.error e) :
    (generateImageWithCount save dl primaryCall rawCall prompt outputFilename).2 = 1 ∧
    (rawFallbackFails (rawCall prompt) →
      (generateImageWithCount save dl primaryCall rawCall prompt outputFilename).1 = none) := by
  constructor
  · simp [generateImageWithCount, hprim]
  · intro hfail
    simp only [generateImageWithCount, hprim]
    rcases hr : rawCall prompt with msg | r
    · simp [generateImageRawApi]
    · rw [hr] at hfail
      simp only [rawFallbackFails] at hfail
      rcases hfail with hst | hdata | ⟨d, rest, hd, hb, hu⟩
      · simp [generateImageRawApi, hst]
      · simp [generateImageRawApi, hdata]
      · simp [generateImageRawApi, hd, hb, hu]

/-- C4 witness: primary call raising and fallback returning a 500 status
with an empty data array, evaluated concretely. -/
theorem C4_fallback_once_witness :
    (generateImageWithCount (fun _ _ => none) (fun _ _ => none)
      (fun _ => Except.error "boom") (fun _ => Except.ok (RawResponse.mk 500 []))
      "a gradient" "ppt_slide_01").2 = 1 ∧
    (generateImageWithCount (fun _ _ => none) (fun _ _ => none)
      (fun _ => Except.error "boom") (fun _ => Except.ok (RawResponse.mk 500 []))
      "a gradient" "ppt_slide_01").1 = none :=
  ⟨(C4_fallback_once (fun _ _ => none) (fun _ _ => none)
      (fun _ => Except.error "boom") (fun _ => Except.ok (RawResponse.mk 500 []))
      "a gradient" "ppt_slide_01" "boom" rfl).1,
   (C4_fallback_once (fun _ _ => none) (fun _ _ => none)
      (fun _ => Except.error "boom") (fun _ => Except.ok (RawResponse.mk 500 []))
      "a gradient" "ppt_slide_01" "boom" rfl).2 (Or.inl (by decide))⟩

theorem createPptAux_length_of_all (fileOnDisk : String → Bool)
    (sd : Option (List Slide)) (paths : List String) (i : Nat)
    (h : ∀ p ∈ paths, fileOnDisk p = true) :
    (createPptAux fileOnDisk sd i paths).length = paths.length := by
  induction paths generalizing i with
  | nil => rfl
  | cons p rest ih =>
    have hp : fileOnDisk p = true := h p (List.mem_cons_self p rest)
    simp [createPptAux, hp,
      ih (i + 1) (fun q hq => h q (List.mem_cons_of_mem _ hq))]

theorem createPptAux_getElem_of_all (fileOnDisk : String → Bool)
    (sd : Option (List Slide)) (paths : List String) (i : Nat)
    (h : ∀ p ∈ paths, fileOnDisk p = true) (j : Nat) (hj : j < paths.length) :
    (createPptAux fileOnDisk sd i paths)[j]? =
      some (RenderedSlide.mk paths[j] (slideRole sd (i + j))
        (infoTitle (slideInfo sd (i + j))) (infoContent (slideInfo sd (i + j)))) := by
  induction paths generalizing i j with
  | nil => simp at hj
  | cons p rest ih =>
    have hp : fileOnDisk p = true := h p (List.mem_cons_self p rest)
    cases j with
    | zero => simp [createPptAux, hp]
    | succ k =>
      have hk : k < rest.length := by simpa using hj
      have hik : i + 1 + k = i + (k + 1) := by omega
      simp only [createPptAux, hp, if_true]
      rw [List.getElem?_cons_succ,
        ih (i + 1) (fun q hq => h q (List.mem_cons_of_mem _ hq)) k hk, hik]
      simp

theorem slideRole_no_data (i : Nat) :
    slideRole none i = (if i = 0 then Role.cover else Role.content) := by
  cases i with
  | zero => rfl
  | succ k => simp [slideRole, slideInfo, dataTruthy, infoNumber]

/-- C7 (amended): with no `slides_data`, every slide except the first is
rendered with the Content layout with empty title and content; the first
slide, whose defaulted slide number `i + 1` equals 1, is rendered with the
Cover layout (also with empty text). Assembly is a total function: it
completes on every input. -/
theorem C7_no_context (imagePaths : List String) (fileOnDisk : String → Bool)
    (hex : ∀ p ∈ imagePaths, fileOnDisk p = true) :
    (createPptFromImages fileOnDisk imagePaths none).length = imagePaths.length ∧
    ∀ j, (hj : j < imagePaths.length) →
      (createPptFromImages fileOnDisk imagePaths none)[j]? =
        some (RenderedSlide.mk imagePaths[j]
          (if j = 0 then Role.cover else Role.content) "" "") := by
  constructor
  · exact createPptAux_length_of_all fileOnDisk none imagePaths 0 hex
  · intro j hj
    rw [createPptFromImages, createPptAux_getElem_of_all fileOnDisk none imagePaths 0 hex j hj]
    simp [slideRole_no_data, slideInfo, dataTruthy, infoTitle, infoContent]

/-- C7 witness: two existing background images and no slide data. -/
theorem C7_no_context_witness :
    (createPptFromImages (fun _ => true) ["a.png", "b.png"] none)[1]? =
      some (RenderedSlide.mk "b.png" Role.content "" "") := by
  have h := (C7_no_context ["a.png", "b.png"] (fun _ => true) (by intro p _; rfl)).2 1 (by decide)
  simpa using h

/-- C7 counterexample: with two existing images and no slide-count context,
the first produced slide receives the Cover layout, not the Content layout
as claimed. -/
theorem C7_counterexample :
    createPptFromImages (fun _ => true) ["a.png", "b.png"] none =
      [RenderedSlide.mk "a.png" Role.cover "" "",
       RenderedSlide.mk "b.png" Role.content "" ""] ∧
    Role.cover ≠ Role.content := by
  constructor
  · rfl
  · decide

theorem slideRole_wf (l : List Slide) (j : Nat) (hj : j < l.length)
    (hnum : l[j].slide_number = some (j + 1)) :
    slideRole (some l) j =
      (if j = 0 then Role.cover
       else if j + 1 = l.length then Role.closing else Role.content) := by
  have h0 : 0 < l.length := Nat.lt_of_le_of_lt (Nat.zero_le _) hj
  have hne : l.isEmpty = false := by
    cases l with
    | nil => simp at h0
    | cons a as => rfl
  have hinfo : slideInfo (some l) j = some l[j] := by
    simp [slideInfo, dataTruthy, hne, hj, List.getElem?_eq_getElem hj]
  have hnumv : infoNumber (slideInfo (some l) j) j = j + 1 := by
    simp [infoNumber, hinfo, hnum]
  simp only [slideRole, hnumv, dataTruthy, hne, Bool.not_false, Option.getD_some]
  by_cases hz : j = 0
  · subst hz
    simp
  · have hone : ¬(j + 1 = 1) := by omega
    simp [hz, hone]

/-- C3 (amended): for every deck assembled from a full, position-consistent
`slides_data` list (`slide_number` at index `k` is `k + 1`) with at least two
slides and all images present on disk, the layout role is determined by
position: the first slide receives the Cover layout, the last receives the
Closing layout, and every slide strictly in between receives the Content
layout. (The role is read from the `slide_number` field, which under this
invariant coincides with position; in a single-slide deck the sole slide
receives Cover, not Closing.) -/
theorem C3_roles (imagePaths : List String) (l : List Slide)
    (fileOnDisk : String → Bool)
    (hlen : imagePaths.length = l.length) (h2 : 2 ≤ l.length)
    (hnum : ∀ k, (hk : k < l.length) → l[k].slide_number = some (k + 1))
    (hex : ∀ p ∈ imagePaths, fileOnDisk p = true) :
    (createPptFromImages fileOnDisk imagePaths (some l)).length = l.length ∧
    ∀ j, (hj : j < l.length) →
      ((createPptFromImages fileOnDisk imagePaths (some l))[j]?).map
          (fun r => r.role) =
        some (if j = 0 then Role.cover
              else if j + 1 = l.length then Role.closing else Role.content) := by
  constructor
  · rw [createPptFromImages, createPptAux_length_of_all fileOnDisk (some l) imagePaths 0 hex,
      hlen]
  · intro j hj
    have hjp : j < imagePaths.length := by omega
    rw [createPptFromImages,
      createPptAux_getElem_of_all fileOnDisk (some l) imagePaths 0 hex j hjp]
    simp [Nat.zero_add, slideRole_wf l j hj (hnum j hj)]

/-- C3 witness: a three-slide deck with consistent numbering; the middle
slide receives the Content layout. -/
theorem C3_roles_witness :
    ((createPptFromImages (fun _ => true) ["a.png", "b.png", "c.png"]
        (some [Slide.mk (some 1) (some "T1") (some "C1") (some "P1"),
               Slide.mk (some 2) (some "T2") (some "C2") (some "P2"),
               Slide.mk (some 3) (some "T3") (some "C3") (some "P3")]))[1]?).map
        (fun r => r.role) = some Role.content := by
  have h := (C3_roles ["a.png", "b.png", "c.png"]
    [Slide.mk (some 1) (some "T1") (some "C1") (some "P1"),
     Slide.mk (some 2) (some "T2") (some "C2") (some "P2"),
     Slide.mk (some 3) (some "T3") (some "C3") (some "P3")]
    (fun _ => true) rfl (by decide)
    (by intro k hk
        match k, hk with
        | 0, _ => rfl
        | 1, _ => rfl
        | 2, _ => rfl)
    (by intro p _; rfl)).2 1 (by decide)
  simpa using h

/-- C3 counterexample: in a single-slide deck the last slide is also the
first and receives the Cover layout, so the claim that the last slide always
receives the Closing layout fails. -/
theorem C3_counterexample :
    createPptFromImages (fun _ => true) ["bg.png"]
        (some [Slide.mk (some 1) (some "T") (some "") (some "p")]) =
      [RenderedSlide.mk "bg.png" Role.cover "T" ""] ∧
    Role.cover ≠ Role.closing := by
  constructor
  · rfl
  · decide

/-- C10: in every single-slide deck whose sole slide carries slide number 1
and whose image exists on disk, the slide is rendered with the Cover layout
and never the Closing layout: the cover branch is tested first, so it takes
precedence even though the slide number also equals the list length. -/
theorem C10_single_slide_cover (p : String) (s : Slide) (fileOnDisk : String → Bool)
    (hex : fileOnDisk p = true) (hnum : s.slide_number = some 1) :
    createPptFromImages fileOnDisk [p] (some [s]) =
      [RenderedSlide.mk p Role.cover ((s.title).getD "") ((s.content).getD "")] ∧
    Role.cover ≠ Role.closing := by
  constructor
  · simp [createPptFromImages, createPptAux, hex, slideRole, slideInfo, dataTruthy,
      infoNumber, infoTitle, infoContent, hnum]
  · decide

/-- C10 witness: a concrete single-slide deck. -/
theorem C10_single_slide_cover_witness :
    createPptFromImages (fun _ => true) ["cover.png"]
        (some [Slide.mk (some 1) (some "Hello") (some "World") (some "p")]) =
      [RenderedSlide.mk "cover.png" Role.cover "Hello" "World"] ∧
    Role.cover ≠ Role.closing := by
  have h := C10_single_slide_cover "cover.png"
    (Slide.mk (some 1) (some "Hello") (some "World") (some "p"))
    (fun _ => true) rfl rfl
  simpa using h

/-- C8: in the asynchronous task path, when a non-empty style modifier is
supplied, every prompt passed to the image renderer is the slide's original
image prompt with the style modifier appended verbatim (followed by the
fixed words `design style`): the rendered prompt list is exactly the
original prompt list mapped through appending `, {style} design style`. -/
theorem C8_style_appended (slides : List Slide) (style : String) (h : style ≠ "") :
    renderedPrompts slides style =
      (slidePromptList slides).map (fun p => p ++ ", " ++ style ++ " design style") := by
  have hs : style.isEmpty = false := isEmpty_false_of_ne style h
  induction slides with
  | nil => rfl
  | cons s rest ih =>
    by_cases hp : ((s.image_prompt).getD "").isEmpty = true
    · simp only [renderedPrompts, slidePromptList, List.filterMap_cons, hp] at ih ⊢
      simpa using ih
    · have hp' : ((s.image_prompt).getD "").isEmpty = false := by
        cases hb : ((s.image_prompt).getD "").isEmpty
        · rfl
        · exact absurd hb hp
      simp only [renderedPrompts, slidePromptList, List.filterMap_cons, hp',
        applyStyle, hs] at ih ⊢
      simpa using ih

/-- C8 witness: two slides (one with an empty prompt, skipped) and the style
modifier `minimalist`. -/
theorem C8_style_appended_witness :
    renderedPrompts
        [Slide.mk (some 1) (some "T1") (some "C1") (some "a blue gradient"),
         Slide.mk (some 2) (some "T2") (some "C2") (some "")]
        "minimalist" =
      (slidePromptList
        [Slide.mk (some 1) (some "T1") (some "C1") (some "a blue gradient"),
         Slide.mk (some 2) (some "T2") (some "C2") (some "")]).map
        (fun p => p ++ ", " ++ "minimalist" ++ " design style") :=
  C8_style_appended
    [Slide.mk (some 1) (some "T1") (some "C1") (some "a blue gradient"),
     Slide.mk (some 2) (some "T2") (some "C2") (some "")]
    "minimalist" (by decide)

/-- C9: the request surface errors in exactly the claimed cases. Submitting
with missing or blank text yields 400 `Text content is required` and any
other text yields success; polling an unknown task yields 404 `Task not
found` and a known task yields success; downloading an unknown task yields
404 `Task not found`, a known but uncompleted task yields 400 `PPT not ready
yet`, a completed task whose artifact file is absent yields 404 `File not
found`, and a completed task with its file on disk succeeds. -/
theorem C9_error_taxonomy :
    (∀ text taskId, (pyStrip (text.getD "").toList).isEmpty = true →
      generateEndpoint text taskId = ApiResp.failure 400 "Text content is required") ∧
    (∀ text taskId, (pyStrip (text.getD "").toList).isEmpty = false →
      generateEndpoint text taskId = ApiResp.success taskId) ∧
    (∀ tasks taskId, statusEndpoint tasks taskId = ApiResp.failure 404 "Task not found" ↔
      tasks taskId = none) ∧
    (∀ tasks : String → Option TaskEntry, ∀ taskId t, tasks taskId = some t →
      statusEndpoint tasks taskId = ApiResp.success t.status) ∧
    (∀ tasks fileOnDisk taskId,
      downloadEndpoint tasks fileOnDisk taskId = ApiResp.failure 404 "Task not found" ↔
      tasks taskId = none) ∧
    (∀ tasks : String → Option TaskEntry, ∀ fileOnDisk : String → Bool, ∀ taskId t,
      tasks taskId = some t →
        (t.status ≠ "completed" →
          downloadEndpoint tasks fileOnDisk taskId = ApiResp.failure 400 "PPT not ready yet") ∧
        (t.status = "completed" → fileOnDisk t.pptPath = false →
          downloadEndpoint tasks fileOnDisk taskId = ApiResp.failure 404 "File not found") ∧
        (t.status = "completed" → fileOnDisk t.pptPath = true →
          downloadEndpoint tasks fileOnDisk taskId = ApiResp.success t.pptFilename)) := by
  refine ⟨?_, ?_, ?_, ?_, ?_, ?_⟩
  · intro text taskId ht
    unfold generateEndpoint
    rw [if_pos ht]
  · intro text taskId ht
    unfold generateEndpoint
    rw [if_neg (fun hc => Bool.false_ne_true (ht.symm.trans hc))]
  · intro tasks taskId
    cases htask : tasks taskId with
    | none => simp [statusEndpoint, htask]
    | some t => simp [statusEndpoint, htask]
  · intro tasks taskId t htask
    simp [statusEndpoint, htask]
  · intro tasks fileOnDisk taskId
    cases htask : tasks taskId with
    | none => simp [downloadEndpoint, htask]
    | some t =>
      constructor
      · intro hcontra
        simp only [downloadEndpoint, htask] at hcontra
        by_cases hst : t.status = "completed"
        · rw [if_neg (fun hne => hne hst)] at hcontra
          by_cases hfile : fileOnDisk t.pptPath = false
          · rw [if_pos hfile] at hcontra
            exact absurd hcontra (by decide)
          · rw [if_neg hfile] at hcontra
            exact ApiResp.noConfusion hcontra
        · rw [if_pos hst] at hcontra
          exact absurd hcontra (by decide)
      · intro hcontra
        exact Option.noConfusion hcontra
  · intro tasks fileOnDisk taskId t htask
    refine ⟨?_, ?_, ?_⟩
    · intro hst
      simp [downloadEndpoint, htask, hst]
    · intro hst hfile
      simp [downloadEndpoint, htask, hst, hfile]
    · intro hst hfile
      simp [downloadEndpoint, htask, hst, hfile]

/-- C9 witness: a blank submission is rejected, a completed task with its
file on disk downloads successfully. -/
theorem C9_error_taxonomy_witness :
    generateEndpoint (some "   ") "id1" = ApiResp.failure 400 "Text content is required" ∧
    downloadEndpoint (fun _ => some (TaskEntry.mk "completed" "out/p.pptx" "p.pptx"))
      (fun _ => true) "id2" = ApiResp.success "p.pptx" :=
  ⟨C9_error_taxonomy.1 (some "   ") "id1" (by decide),
   (C9_error_taxonomy.2.2.2.2.2 (fun _ => some (TaskEntry.mk "completed" "out/p.pptx" "p.pptx"))
     (fun _ => true) "id2" (TaskEntry.mk "completed" "out/p.pptx" "p.pptx") rfl).2.2 rfl rfl⟩

theorem pyReplace_append (a b : Char) (l m : List Char) :
    pyReplace a b (l ++ m) = pyReplace a b l ++ pyReplace a b m := by
  induction l with
  | nil => rfl
  | cons c cs ih => simp [pyReplace, ih]

theorem pyReplace_of_not_mem (a b : Char) (l : List Char) (h : a ∉ l) :
    pyReplace a b l = l := by
  induction l with
  | nil => rfl
  | cons c cs ih =>
    have hc : ¬(c = a) := by
      intro hca
      exact h (by rw [← hca]; exact List.mem_cons_self c cs)
    simp [pyReplace, hc, ih (fun hm => h (List.mem_cons_of_mem c hm))]

theorem not_mem_joinPoints (a sep : Char) (pts : List (List Char))
    (hsep : ¬(a = sep)) (h : ∀ p ∈ pts, a ∉ p) : a ∉ joinPoints sep pts := by
  induction pts with
  | nil => simp [joinPoints]
  | cons p rest ih =>
    cases rest with
    | nil =>
      simp only [joinPoints]
      exact h p (List.mem_cons_self p [])
    | cons q rs =>
      simp only [joinPoints]
      intro hmem
      rcases List.mem_append.mp hmem with hp | hrest
      · exact h p (List.mem_cons_self p (q :: rs)) hp
      · rcases List.mem_cons.mp hrest with heq | hj
        · exact hsep heq
        · exact ih (fun r hr => h r (List.mem_cons_of_mem p hr)) hj

theorem pyReplace_joinPoints (a b : Char) (pts : List (List Char))
    (h : ∀ p ∈ pts, a ∉ p) :
    pyReplace a b (joinPoints a pts) = joinPoints b pts := by
  induction pts with
  | nil => rfl
  | cons p rest ih =>
    cases rest with
    | nil =>
      simp only [joinPoints]
      exact pyReplace_of_not_mem a b p (h p (List.mem_cons_self p []))
    | cons q rs =>
      simp [joinPoints, pyReplace_append, pyReplace,
        pyReplace_of_not_mem a b p (h p (List.mem_cons_self p (q :: rs))),
        ih (fun r hr => h r (List.mem_cons_of_mem p hr))]

theorem pySplit_of_not_mem (sep : Char) (p : List Char) (h : sep ∉ p) :
    pySplit sep p = [p] := by
  induction p with
  | nil => rfl
  | cons c cs ih =>
    have hc : ¬(c = sep) := by
      intro hcs
      exact h (by rw [hcs]; exact List.mem_cons_self sep cs)
    simp [pySplit, hc, ih (fun hm => h (List.mem_cons_of_mem c hm))]

theorem pySplit_append_sep (sep : Char) (p l : List Char) (h : sep ∉ p) :
    pySplit sep (p ++ sep :: l) = p :: pySplit sep l := by
  induction p with
  | nil => simp [pySplit]
  | cons c cs ih =>
    have hc : ¬(c = sep) := by
      intro hcs
      exact h (by rw [hcs]; exact List.mem_cons_self sep cs)
    simp [pySplit, hc, ih (fun hm => h (List.mem_cons_of_mem c hm))]

theorem pySplit_joinPoints (sep : Char) (pts : List (List Char))
    (hne : pts ≠ []) (h : ∀ p ∈ pts, sep ∉ p) :
    pySplit sep (joinPoints sep pts) = pts := by
  induction pts with
  | nil => exact absurd rfl hne
  | cons p rest ih =>
    cases rest with
    | nil =>
      simp only [joinPoints]
      exact pySplit_of_not_mem sep p (h p (List.mem_cons_self p []))
    | cons q rs =>
      simp only [joinPoints]
      rw [pySplit_append_sep sep p (joinPoints sep (q :: rs))
          (h p (List.mem_cons_self p (q :: rs))),
        ih (List.cons_ne_nil q rs) (fun r hr => h r (List.mem_cons_of_mem p hr))]

theorem map_eq_self_of {α : Type} (f : α → α) (l : List α) (h : ∀ x ∈ l, f x = x) :
    l.map f = l := by
  induction l with
  | nil => rfl
  | cons x xs ih =>
    simp [h x (List.mem_cons_self x xs), ih (fun y hy => h y (List.mem_cons_of_mem x hy))]

theorem filter_eq_self_of {α : Type} (q : α → Bool) (l : List α)
    (h : ∀ x ∈ l, q x = true) : l.filter q = l := by
  induction l with
  | nil => rfl
  | cons x xs ih =>
    simp [List.filter_cons, h x (List.mem_cons_self x xs),
      ih (fun y hy => h y (List.mem_cons_of_mem x hy))]

/-- C6 (amended): for every list of content points each of which is
nonempty, fixed by stripping, and free of both delimiter variants, joining
the points with either delimiter (`;` or `；`) and re-splitting with the
assembler's split logic yields the original point list, with no empty
entries in the result. -/
theorem C6_roundtrip (sep : Char) (pts : List (List Char))
    (hsep : sep = ';' ∨ sep = '；')
    (h : ∀ p ∈ pts, p ≠ [] ∧ pyStrip p = p ∧ ';' ∉ p ∧ '；' ∉ p) :
    parsePoints (joinPoints sep pts) = pts ∧
    ∀ p ∈ parsePoints (joinPoints sep pts), p ≠ [] := by
  have main : parsePoints (joinPoints sep pts) = pts := by
    cases pts with
    | nil => rfl
    | cons p0 rest =>
      have hne : (p0 :: rest) ≠ [] := List.cons_ne_nil p0 rest
      have hrep : pyReplace '；' ';' (joinPoints sep (p0 :: rest)) =
          joinPoints ';' (p0 :: rest) := by
        rcases hsep with h1 | h1
        · subst h1
          exact pyReplace_of_not_mem '；' ';' _
            (not_mem_joinPoints '；' ';' (p0 :: rest) (by decide)
              (fun p hp => (h p hp).2.2.2))
        · subst h1
          exact pyReplace_joinPoints '；' ';' (p0 :: rest)
            (fun p hp => (h p hp).2.2.2)
      unfold parsePoints
      rw [hrep,
        pySplit_joinPoints ';' (p0 :: rest) hne (fun p hp => (h p hp).2.2.1),
        map_eq_self_of pyStrip (p0 :: rest) (fun p hp => (h p hp).2.1),
        filter_eq_self_of _ (p0 :: rest)
          (fun p hp => not_isEmpty_of_ne_nil p (h p hp).1)]
  refine ⟨main, ?_⟩
  rw [main]
  intro p hp
  exact (h p hp).1

/-- C6 witness: the points `a` and `bc` joined with the full-width delimiter
round-trip to themselves. -/
theorem C6_roundtrip_witness :
    parsePoints (joinPoints '；' [['a'], ['b', 'c']]) = [['a'], ['b', 'c']] ∧
    ∀ p ∈ parsePoints (joinPoints '；' [['a'], ['b', 'c']]), p ≠ [] :=
  C6_roundtrip '；' [['a'], ['b', 'c']] (Or.inr rfl) (by decide)

/-- C6 counterexample: a point that itself contains the delimiter does not
round-trip — joining `a;b` and re-splitting yields the two points `a` and
`b`, not the original one-point list. -/
theorem C6_counterexample :
    parsePoints (joinPoints ';' [['a', ';', 'b']]) = [['a'], ['b']] ∧
    [['a'], ['b']] ≠ [['a', ';', 'b']] := by
  constructor
  · rfl
  · decide

/-- C2 (amended): with 5 requested slides and image rendering failing for
slide 3 only, the task completes with a 4-slide deck whose backgrounds keep
the slide-number order 1, 2, 4, 5 and whose status is success — but the
overlays are assigned positionally from the first four slide records, so
the backgrounds of slides 4 and 5 carry the titles and contents of slides 3
and 4: overlay-to-background correspondence fails for every slide after the
failed one. -/
theorem C2_partial_failure
    (t1 t2 t3 t4 t5 c1 c2 c3 c4 c5 p1 p2 p3 p4 p5 : String)
    (hp1 : p1 ≠ "") (hp2 : p2 ≠ "") (hp3 : p3 ≠ "") (hp4 : p4 ≠ "") (hp5 : p5 ≠ "")
    (style taskId : String) (render : String → String → Option String)
    (q1 q2 q4 q5 : String) (fileOnDisk : String → Bool)
    (h1 : render (applyStyle style p1) (taskId ++ "_slide_" ++ pad2 1) = some q1)
    (h2 : render (applyStyle style p2) (taskId ++ "_slide_" ++ pad2 2) = some q2)
    (h3 : render (applyStyle style p3) (taskId ++ "_slide_" ++ pad2 3) = none)
    (h4 : render (applyStyle style p4) (taskId ++ "_slide_" ++ pad2 4) = some q4)
    (h5 : render (applyStyle style p5) (taskId ++ "_slide_" ++ pad2 5) = some q5)
    (e1 : fileOnDisk q1 = true) (e2 : fileOnDisk q2 = true)
    (e4 : fileOnDisk q4 = true) (e5 : fileOnDisk q5 = true) :
    generatePptTask
        (Except.ok
          [Slide.mk (some 1) (some t1) (some c1) (some p1),
           Slide.mk (some 2) (some t2) (some c2) (some p2),
           Slide.mk (some 3) (some t3) (some c3) (some p3),
           Slide.mk (some 4) (some t4) (some c4) (some p4),
           Slide.mk (some 5) (some t5) (some c5) (some p5)])
        render style taskId fileOnDisk =
      ("completed",
        [RenderedSlide.mk q1 Role.cover t1 c1,
         RenderedSlide.mk q2 Role.content t2 c2,
         RenderedSlide.mk q4 Role.content t3 c3,
         RenderedSlide.mk q5 Role.content t4 c4]) := by
  have he1 : (!p1.isEmpty) = true := by rw [isEmpty_false_of_ne p1 hp1]; rfl
  have he2 : (!p2.isEmpty) = true := by rw [isEmpty_false_of_ne p2 hp2]; rfl
  have he3 : (!p3.isEmpty) = true := by rw [isEmpty_false_of_ne p3 hp3]; rfl
  have he4 : (!p4.isEmpty) = true := by rw [isEmpty_false_of_ne p4 hp4]; rfl
  have he5 : (!p5.isEmpty) = true := by rw [isEmpty_false_of_ne p5 hp5]; rfl
  simp only [generatePptTask, taskImagePathsAux, Option.getD_some,
    he1, he2, he3, he4, he5, if_true, h1, h2, h3, h4, h5]
  simp [createPptFromImages, createPptAux, e1, e2, e4, e5, slideRole, slideInfo,
    dataTruthy, infoNumber, infoTitle, infoContent]

/-- C2 witness: concrete slides, a renderer that fails exactly on the third
filename, and every produced path present on disk. -/
theorem C2_partial_failure_witness :
    generatePptTask
        (Except.ok
          [Slide.mk (some 1) (some "T1") (some "C1") (some "P1"),
           Slide.mk (some 2) (some "T2") (some "C2") (some "P2"),
           Slide.mk (some 3) (some "T3") (some "C3") (some "P3"),
           Slide.mk (some 4) (some "T4") (some "C4") (some "P4"),
           Slide.mk (some 5) (some "T5") (some "C5") (some "P5")])
        (fun _ fname => if fname = "t" ++ "_slide_" ++ pad2 3 then none
          else some ("img_" ++ fname))
        "vivid" "t" (fun _ => true) =
      ("completed",
        [RenderedSlide.mk ("img_" ++ ("t" ++ "_slide_" ++ pad2 1)) Role.cover "T1" "C1",
         RenderedSlide.mk ("img_" ++ ("t" ++ "_slide_" ++ pad2 2)) Role.content "T2" "C2",
         RenderedSlide.mk ("img_" ++ ("t" ++ "_slide_" ++ pad2 4)) Role.content "T3" "C3",
         RenderedSlide.mk ("img_" ++ ("t" ++ "_slide_" ++ pad2 5)) Role.content "T4" "C4"]) :=
  C2_partial_failure "T1" "T2" "T3" "T4" "T5" "C1" "C2" "C3" "C4" "C5"
    "P1" "P2" "P3" "P4" "P5"
    (by decide) (by decide) (by decide) (by decide) (by decide)
    "vivid" "t"
    (fun _ fname => if fname = "t" ++ "_slide_" ++ pad2 3 then none
      else some ("img_" ++ fname))
    ("img_" ++ ("t" ++ "_slide_" ++ pad2 1)) ("img_" ++ ("t" ++ "_slide_" ++ pad2 2))
    ("img_" ++ ("t" ++ "_slide_" ++ pad2 4)) ("img_" ++ ("t" ++ "_slide_" ++ pad2 5))
    (fun _ => true)
    (by decide) (by decide) (by decide) (by decide) (by decide)
    rfl rfl rfl rfl

/-- C2 counterexample: in the concrete partial-failure scenario the deck has
4 slides in order with status success, but its third slide pairs the
background generated for slide 4 (`img_t_slide_04`) with the title and
content of slide 3 (`T3`, `C3`), and slide titles `T3` and `T4` differ — so
the overlay does not correspond to the slide whose background image it is. -/
theorem C2_counterexample :
    generatePptTask
        (Except.ok
          [Slide.mk (some 1) (some "T1") (some "C1") (some "P1"),
           Slide.mk (some 2) (some "T2") (some "C2") (some "P2"),
           Slide.mk (some 3) (some "T3") (some "C3") (some "P3"),
           Slide.mk (some 4) (some "T4") (some "C4") (some "P4"),
           Slide.mk (some 5) (some "T5") (some "C5") (some "P5")])
        (fun _ fname => if fname = "t_slide_03" then none
          else some ("img_" ++ fname))
        "" "t" (fun _ => true) =
      ("completed",
        [RenderedSlide.mk "img_t_slide_01" Role.cover "T1" "C1",
         RenderedSlide.mk "img_t_slide_02" Role.content "T2" "C2",
         RenderedSlide.mk "img_t_slide_04" Role.content "T3" "C3",
         RenderedSlide.mk "img_t_slide_05" Role.content "T4" "C4"]) ∧
    "T3" ≠ "T4" := by
  constructor
  · rfl
  · decide

end Text2PPT
